import Mathlib

/-!
Verification of the grid-shift data generator.

The definitions below are a shallow embedding of the repository's source:
`src/generator.py` (constraint sampler, difficulty scoring, valid-position
computation, animation frame builder) and `src/prompts.py` (prompt composer).

Randomness is made explicit: every call to the pseudo-random library is fed
an abstract seed value.  `random.randint(a, b)` is modelled by
`randintE a b r`, which returns `a + r % (b - a + 1)` when `a ≤ b` (the
support of the uniform draw) and the library's `ValueError` when the range
is empty.  `random.choice` is modelled by `choiceD`, indexing with
`r % length`.  `random.sample(pop, k)` is modelled by an oracle list of
chosen elements together with the predicate `IsSample` stating that the
elements are read off at pairwise-distinct indices of the population, as
the library documents.  Python floats are modelled by rationals, and
Python's `int(...)` conversion by truncation toward zero.
-/

namespace GridShift

/-- The four shift directions, in the insertion order of the `DIRECTIONS`
dict in `generator.py`. -/
inductive Direction where
  | up
  | down
  | left
  | right
  deriving DecidableEq, Repr

/-- `DIRECTIONS`: direction name to (row delta, col delta). -/
def DIRECTIONS : Direction → Int × Int
  | .up => (-1, 0)
  | .down => (1, 0)
  | .left => (0, -1)
  | .right => (0, 1)

/-- The key list `list(DIRECTIONS.keys())` used by `random.choice`. -/
def DIRECTIONS_keys : List Direction := [.up, .down, .left, .right]

/-- `COLORS` from `generator.py`. -/
def COLORS : List String := ["red", "green", "blue", "yellow", "orange", "purple"]

/-- The sampler-relevant fields of `TaskConfig` (`src/config.py`). -/
structure TaskConfig where
  grid_size_min : Int
  grid_size_max : Int
  num_blocks_min : Int
  num_blocks_max_ratio : ℚ
  steps_min : Int
  steps_max : Int
  deriving DecidableEq, Repr

/-- The task-data dict returned by `_generate_task_data`. -/
structure TaskParameters where
  type : String
  grid_size : Int
  num_blocks : Int
  color : String
  direction : Direction
  steps : Int
  positions : List (Int × Int)
  shifted_positions : List (Int × Int)
  difficulty : String
  deriving DecidableEq, Repr

/-- Python `int(q)` on a float value: truncation toward zero. -/
def int_trunc (q : ℚ) : Int := if 0 ≤ q then ⌊q⌋ else ⌈q⌉

/-- The value of `random.randint(a, b)` for seed `r`, when `a ≤ b`:
ranges over exactly the integers of `[a, b]` as `r` ranges over `Nat`. -/
def randint_val (a b : Int) (r : Nat) : Int :=
  a + ((r % (b - a + 1).toNat : Nat) : Int)

/-- The `ValueError` message `random.randint` raises on an empty range. -/
def randint_error_msg : String := "empty range for randrange()"

/-- The `ValueError` message `random.sample` raises on a negative size. -/
def sample_error_msg : String := "Sample larger than population or is negative"

/-- The `ValueError` message raised after exhausting all attempts
(`_generate_task_data`, line 155). -/
def exhausted_msg : String :=
  "Could not generate valid task after 100 attempts. Try adjusting grid_size or num_blocks ranges."

/-- `random.choice(xs)` for seed `r` (`d` is a dummy for the empty list,
on which the library would raise). -/
def choiceD {α : Type} (xs : List α) (d : α) (r : Nat) : α :=
  xs.getD (r % xs.length) d

/-- Python `range(a, b)` as a list of integers. -/
def intRange (a b : Int) : List Int :=
  (List.range (b - a).toNat).map (fun i : Nat => a + (i : Int))

/-- `_get_valid_positions(grid_size, direction, steps)`: the start cells
from which a `steps`-shift in `direction` stays in bounds, as the product
of a row range and a column range (`generator.py`, lines 192-212). -/
def get_valid_positions (grid_size : Int) (direction : Direction) (steps : Int) :
    List (Int × Int) :=
  let dr := (DIRECTIONS direction).1
  let dc := (DIRECTIONS direction).2
  let row_range :=
    if dr = -1 then intRange steps grid_size
    else if dr = 1 then intRange 0 (grid_size - steps)
    else intRange 0 grid_size
  let col_range :=
    if dc = -1 then intRange steps grid_size
    else if dc = 1 then intRange 0 (grid_size - steps)
    else intRange 0 grid_size
  row_range ×ˢ col_range

/-- The accumulated difficulty score of `_calculate_difficulty`
(`generator.py`, lines 163-181). -/
def difficulty_score (grid_size num_blocks steps : Int) : Int :=
  (if grid_size ≥ 10 then 2 else if grid_size ≥ 8 then 1 else 0)
    + (if num_blocks ≥ 5 then 2 else if num_blocks ≥ 4 then 1 else 0)
    + (if steps ≥ 3 then 2 else if steps ≥ 2 then 1 else 0)

/-- The final score-to-label chain of `_calculate_difficulty`
(`generator.py`, lines 183-190). -/
def difficulty_label (score : Int) : String :=
  if score ≤ 1 then "easy"
  else if score ≤ 3 then "medium"
  else if score ≤ 5 then "hard"
  else "expert"

/-- `_calculate_difficulty(grid_size, num_blocks, steps)`. -/
def calculate_difficulty (grid_size num_blocks steps : Int) : String :=
  difficulty_label (difficulty_score grid_size num_blocks steps)

/-- The random draws consumed by one attempt of `_generate_task_data`:
one seed per library call, plus the oracle output of `random.sample`. -/
structure Draw where
  r_grid : Nat
  r_blocks : Nat
  r_dir : Nat
  r_color : Nat
  r_steps : Nat
  chosen : List (Int × Int)
  deriving Repr

/-- The grid size drawn in step 1 of an attempt. -/
def drawn_grid_size (cfg : TaskConfig) (dw : Draw) : Int :=
  randint_val cfg.grid_size_min cfg.grid_size_max dw.r_grid

/-- `max_blocks_by_size` of step 2 (`generator.py`, lines 103-106). -/
def max_blocks_by_size (cfg : TaskConfig) (grid_size : Int) : Int :=
  max cfg.num_blocks_min
    (int_trunc (((grid_size * grid_size : Int) : ℚ) * cfg.num_blocks_max_ratio))

/-- The upper bound passed to `random.randint` in step 2. -/
def num_blocks_hi (cfg : TaskConfig) (grid_size : Int) : Int :=
  min (max_blocks_by_size cfg grid_size) (grid_size * grid_size - 1)

/-- The block count drawn in step 2 of an attempt. -/
def drawn_num_blocks (cfg : TaskConfig) (dw : Draw) : Int :=
  randint_val cfg.num_blocks_min (num_blocks_hi cfg (drawn_grid_size cfg dw)) dw.r_blocks

/-- The direction drawn in step 3 of an attempt. -/
def drawn_direction (dw : Draw) : Direction :=
  choiceD DIRECTIONS_keys .up dw.r_dir

/-- The color drawn in step 3 of an attempt. -/
def drawn_color (dw : Draw) : String :=
  choiceD COLORS "red" dw.r_color

/-- `max_valid_steps` of step 4 (`generator.py`, lines 118-120):
`min(steps_max, grid_size - 2)`, raised to `steps_min` when below it. -/
def max_valid_steps (cfg : TaskConfig) (grid_size : Int) : Int :=
  let m := min cfg.steps_max (grid_size - 2)
  if m < cfg.steps_min then cfg.steps_min else m

/-- The step count drawn in step 4 of an attempt. -/
def drawn_steps (cfg : TaskConfig) (dw : Draw) : Int :=
  randint_val cfg.steps_min (max_valid_steps cfg (drawn_grid_size cfg dw)) dw.r_steps

/-- The valid-position list computed in step 5 of an attempt. -/
def drawn_valid (cfg : TaskConfig) (dw : Draw) : List (Int × Int) :=
  get_valid_positions (drawn_grid_size cfg dw) (drawn_direction dw) (drawn_steps cfg dw)

/-- Shift one position by `steps` times the direction delta
(`generator.py`, line 137). -/
def shift_pos (direction : Direction) (steps : Int) (p : Int × Int) : Int × Int :=
  (p.1 + (DIRECTIONS direction).1 * steps, p.2 + (DIRECTIONS direction).2 * steps)

/-- The dict built in step 8/9 of a successful attempt
(`generator.py`, lines 142-152). -/
def mk_task (cfg : TaskConfig) (dw : Draw) : TaskParameters :=
  { type := "grid_shift"
    grid_size := drawn_grid_size cfg dw
    num_blocks := drawn_num_blocks cfg dw
    color := drawn_color dw
    direction := drawn_direction dw
    steps := drawn_steps cfg dw
    positions := dw.chosen
    shifted_positions := dw.chosen.map (shift_pos (drawn_direction dw) (drawn_steps cfg dw))
    difficulty := calculate_difficulty (drawn_grid_size cfg dw) (drawn_num_blocks cfg dw)
      (drawn_steps cfg dw) }

/-- One attempt of the loop body of `_generate_task_data`
(`generator.py`, lines 99-152).  `.ok none` is the `continue` of step 6;
`.error` models a `ValueError` raised by the random library
(empty `randint` range, negative `sample` size). -/
def generate_attempt (cfg : TaskConfig) (dw : Draw) :
    Except String (Option TaskParameters) :=
  if cfg.grid_size_min ≤ cfg.grid_size_max then
    if cfg.num_blocks_min ≤ num_blocks_hi cfg (drawn_grid_size cfg dw) then
      if cfg.steps_min ≤ max_valid_steps cfg (drawn_grid_size cfg dw) then
        if ((drawn_valid cfg dw).length : Int) < drawn_num_blocks cfg dw then .ok none
        else if drawn_num_blocks cfg dw < 0 then .error sample_error_msg
        else .ok (some (mk_task cfg dw))
      else .error randint_error_msg
    else .error randint_error_msg
  else .error randint_error_msg

/-- The retry loop of `_generate_task_data`, recursing on the remaining
attempt budget, with `start` the index of the next draw to consume. -/
def attempts_from (cfg : TaskConfig) (draws : Nat → Draw) :
    Nat → Nat → Except String TaskParameters
  | _, 0 => .error exhausted_msg
  | start, n + 1 =>
    match generate_attempt cfg (draws start) with
    | .error e => .error e
    | .ok (some tp) => .ok tp
    | .ok none => attempts_from cfg draws (start + 1) n

/-- `_generate_task_data`: up to `max_attempts = 100` attempts, then the
exhaustion `ValueError` (`generator.py`, lines 96-158). -/
def generate_task_data (cfg : TaskConfig) (draws : Nat → Draw) :
    Except String TaskParameters :=
  attempts_from cfg draws 0 100

/-- The documented semantics of `random.sample(ys, k)`: the result reads
off elements of `ys` at pairwise-distinct indices. -/
def IsSample {α : Type} (xs ys : List α) : Prop :=
  ∃ idxs : List (Fin ys.length), idxs.Nodup ∧ xs = idxs.map ys.get

/-- The oracle draws of one attempt are consistent with the semantics of
`random.sample(valid_positions, num_blocks)`: the chosen positions are a
distinct-index sample of the valid positions and there are exactly
`num_blocks` of them. -/
def DrawConsistent (cfg : TaskConfig) (dw : Draw) : Prop :=
  IsSample dw.chosen (drawn_valid cfg dw) ∧
    ((dw.chosen.length : Int) = drawn_num_blocks cfg dw)

/-!
Animation builder (`_create_grid_shift_animation_frames`,
`generator.py` lines 252-298).  A frame is identified with the position
list handed to the deterministic renderer `_render_grid`, with
coordinates as rationals since the interpolated frames use float
coordinates.
-/

/-- A rendered frame, identified by the renderer input: the (possibly
fractional) block positions of that frame. -/
abbrev Frame : Type := List (ℚ × ℚ)

/-- The positions of a held frame: integer positions as rationals. -/
def to_frame (ps : List (Int × Int)) : Frame :=
  ps.map (fun p => (((p.1 : Int) : ℚ), ((p.2 : Int) : ℚ)))

/-- The interpolation parameter of transition frame `i`
(`generator.py`, line 280). -/
def interp_progress (transition_frames i : Nat) : ℚ :=
  if 1 < transition_frames then (i : ℚ) / ((transition_frames : ℚ) - 1) else 1

/-- The interpolated positions of one transition frame
(`generator.py`, lines 283-287). -/
def interp_frame (positions shifted_positions : List (Int × Int)) (progress : ℚ) : Frame :=
  (positions.zip shifted_positions).map (fun pq =>
    (((pq.1.1 : Int) : ℚ) + (((pq.2.1 : Int) : ℚ) - ((pq.1.1 : Int) : ℚ)) * progress,
     ((pq.1.2 : Int) : ℚ) + (((pq.2.2 : Int) : ℚ) - ((pq.1.2 : Int) : ℚ)) * progress))

/-- `_create_grid_shift_animation_frames`: `hold_frames` copies of the
start render, `transition_frames` interpolated frames, `hold_frames`
copies of the end render. -/
def create_grid_shift_animation_frames (positions shifted_positions : List (Int × Int))
    (hold_frames transition_frames : Nat) : List Frame :=
  List.replicate hold_frames (to_frame positions)
    ++ (List.range transition_frames).map
        (fun i => interp_frame positions shifted_positions
          (interp_progress transition_frames i))
    ++ List.replicate hold_frames (to_frame shifted_positions)

/-!
Prompt composer (`src/prompts.py`).  The three template strings are
embedded as token lists: literal text alternating with the named
placeholders that `str.format` substitutes.
-/

/-- One piece of a format template: literal text or a `\x7bname\x7d`
placeholder. -/
inductive Tok where
  | lit (s : String)
  | ph (name : String)
  deriving DecidableEq, Repr

/-- A Python format string, tokenized. -/
abbrev Template : Type := List Tok

/-- First entry of `PROMPT_TEMPLATES` (`prompts.py`, line 17). -/
def template0 : Template :=
  [.lit "The scene shows a ", .ph "grid_size", .lit "x", .ph "grid_size",
   .lit " grid with ", .ph "num_blocks", .lit " ", .ph "color",
   .lit " square blocks, each with a black outline, positioned at various locations. All blocks must move simultaneously ",
   .ph "direction_description", .lit " by exactly ", .ph "steps", .lit " ", .ph "step_word",
   .lit ". Each block shifts one grid cell per step toward the ", .ph "direction_name",
   .lit ", and all blocks must remain within the grid boundaries throughout the movement. After the movement, all blocks should be positioned exactly ",
   .ph "steps", .lit " ", .ph "step_word", .lit " ", .ph "direction_description",
   .lit " from their original positions."]

/-- Second entry of `PROMPT_TEMPLATES` (`prompts.py`, line 19). -/
def template1 : Template :=
  [.lit "The scene displays a ", .ph "grid_size", .lit "x", .ph "grid_size",
   .lit " grid containing ", .ph "num_blocks", .lit " ", .ph "color",
   .lit " square blocks with black borders, distributed across different cells. Move every block ",
   .ph "direction_description", .lit " by precisely ", .ph "steps", .lit " ", .ph "step_word",
   .lit ". All blocks move together at the same time, shifting ", .ph "steps",
   .lit " grid ", .ph "cell_word", .lit " in the ", .ph "direction_name",
   .lit " direction, and each block must stay within the grid\x27s boundaries. The final configuration shows all blocks in their new positions, each exactly ",
   .ph "steps", .lit " ", .ph "step_word", .lit " ", .ph "direction_description",
   .lit " from where it started."]

/-- Third entry of `PROMPT_TEMPLATES` (`prompts.py`, line 21). -/
def template2 : Template :=
  [.lit "In the scene, there is a ", .ph "grid_size", .lit "x", .ph "grid_size",
   .lit " grid with ", .ph "num_blocks", .lit " ", .ph "color",
   .lit " square blocks, each outlined in black, placed at different positions. Translate all blocks ",
   .ph "direction_description", .lit " by exactly ", .ph "steps", .lit " ", .ph "step_word",
   .lit ", moving simultaneously and uniformly. Each block shifts ", .ph "steps",
   .lit " ", .ph "cell_word", .lit " toward the ", .ph "direction_name",
   .lit " direction, and all blocks must remain completely within the grid boundaries. The goal is to achieve a configuration where every block has been moved exactly ",
   .ph "steps", .lit " ", .ph "step_word", .lit " ", .ph "direction_description",
   .lit " to reach its final position."]

/-- `PROMPT_TEMPLATES` (`prompts.py`, lines 16-22). -/
def PROMPT_TEMPLATES : List Template := [template0, template1, template2]

/-- `PROMPTS.get(task_type, PROMPTS["default"])` (`prompts.py`,
lines 37-40 and 85): both keys map to `PROMPT_TEMPLATES`, and any other
key falls back to the default entry. -/
def PROMPTS_get (task_type : String) : List Template :=
  if task_type = "default" then PROMPT_TEMPLATES
  else if task_type = "grid_shift" then PROMPT_TEMPLATES
  else PROMPT_TEMPLATES

/-- `DIRECTION_DESCRIPTIONS.get(direction, ("unknown", "unknown"))`
(`prompts.py`, lines 25-30 and 63-65). -/
def direction_descriptions (direction : String) : String × String :=
  if direction = "up" then ("upward", "top")
  else if direction = "down" then ("downward", "bottom")
  else if direction = "left" then ("leftward", "left")
  else if direction = "right" then ("rightward", "right")
  else ("unknown", "unknown")

/-- `template.format(...)`: every placeholder replaced by its value under
the substitution environment. -/
def format_template (t : Template) (env : String → String) : String :=
  String.join (t.map (fun tok =>
    match tok with
    | .lit s => s
    | .ph name => env name))

/-- A template string left unformatted, as the fallback path returns it:
placeholders kept as literal `\x7bname\x7d` text. -/
def render_raw (t : Template) : String :=
  String.join (t.map (fun tok =>
    match tok with
    | .lit s => s
    | .ph name => "\x7b" ++ name ++ "\x7d"))

/-- The keys of the task-data dict that `get_prompt` reads; a `none`
field models an absent key. -/
structure TaskData where
  direction : Option String
  steps : Option Int
  grid_size : Option Int
  num_blocks : Option Int
  color : Option String
  deriving DecidableEq, Repr

/-- The keyword-argument environment built by `get_prompt` on the normal
path (`prompts.py`, lines 57-82). -/
def prompt_env (td : TaskData) (direction : String) (steps : Int) : String → String :=
  fun name =>
    if name = "grid_size" then toString (td.grid_size.getD 6)
    else if name = "num_blocks" then toString (td.num_blocks.getD 3)
    else if name = "color" then td.color.getD "colored"
    else if name = "steps" then toString steps
    else if name = "step_word" then if steps = 1 then "step" else "steps"
    else if name = "cell_word" then if steps = 1 then "cell" else "cells"
    else if name = "direction" then direction
    else if name = "direction_description" then (direction_descriptions direction).1
    else if name = "direction_name" then (direction_descriptions direction).2
    else ""

/-- `get_prompt(task_type, task_data)` (`prompts.py`, lines 43-86), with
an explicit seed `r` for the single `random.choice` call.  A `none`
argument models both `task_data=None` and the falsy empty dict; the
fallback branch is taken exactly when the `direction` or `steps` key is
missing. -/
def get_prompt (r : Nat) (task_type : String) (task_data : Option TaskData) : String :=
  match task_data with
  | some td =>
    match td.direction, td.steps with
    | some direction, some steps =>
      format_template (choiceD PROMPT_TEMPLATES [] r) (prompt_env td direction steps)
    | some _, none => render_raw (choiceD (PROMPTS_get task_type) [] r)
    | none, _ => render_raw (choiceD (PROMPTS_get task_type) [] r)
  | none => render_raw (choiceD (PROMPTS_get task_type) [] r)

/-!
Spec-side definitions, used only to state refinement claims against the
embedded code.
-/

/-- The grid-size contribution of the difficulty score, exactly as the
spec words it: at least 10 adds 2, else at least 8 adds 1, else 0. -/
def grid_score_spec (grid_size : Int) : Int :=
  if 10 ≤ grid_size then 2 else if 8 ≤ grid_size then 1 else 0

/-- The block-count contribution of the difficulty score per the spec:
at least 5 adds 2, else at least 4 adds 1, else 0. -/
def blocks_score_spec (num_blocks : Int) : Int :=
  if 5 ≤ num_blocks then 2 else if 4 ≤ num_blocks then 1 else 0

/-- The step-count contribution of the difficulty score per the spec:
at least 3 adds 2, else at least 2 adds 1, else 0. -/
def steps_score_spec (steps : Int) : Int :=
  if 3 ≤ steps then 2 else if 2 ≤ steps then 1 else 0

/-- The difficulty function as the spec describes it: the additive score
of the three thresholds, mapped through the label cutoffs 1, 3 and 5. -/
def difficulty_spec (grid_size num_blocks steps : Int) : String :=
  let score := grid_score_spec grid_size + blocks_score_spec num_blocks
    + steps_score_spec steps
  if score ≤ 1 then "easy"
  else if score ≤ 3 then "medium"
  else if score ≤ 5 then "hard"
  else "expert"

/-- The order easy < medium < hard < expert on difficulty labels. -/
def difficulty_rank (label : String) : Nat :=
  if label = "easy" then 0
  else if label = "medium" then 1
  else if label = "hard" then 2
  else 3

/-!
Concrete instances used to witness the theorems below.
-/

/-- A feasible concrete configuration: fixed 4x4 grid, one block,
one step. -/
def cfg0 : TaskConfig :=
  { grid_size_min := 4, grid_size_max := 4, num_blocks_min := 1,
    num_blocks_max_ratio := (2 : ℚ) / 5, steps_min := 1, steps_max := 1 }

/-- A concrete draw: all seeds zero, the sample taking the first valid
position. -/
def dw0 : Draw :=
  { r_grid := 0, r_blocks := 0, r_dir := 0, r_color := 0, r_steps := 0,
    chosen := [(1, 0)] }

/-- The task data produced from `cfg0` and `dw0`. -/
def tp0 : TaskParameters :=
  { type := "grid_shift", grid_size := 4, num_blocks := 1, color := "red",
    direction := .up, steps := 1, positions := [(1, 0)],
    shifted_positions := [(0, 0)], difficulty := "easy" }

/-- A 3x3, 3-step configuration whose `num_blocks_min = 9` makes the
block-count range of step 2 empty. -/
def cfg9 : TaskConfig :=
  { grid_size_min := 3, grid_size_max := 3, num_blocks_min := 9,
    num_blocks_max_ratio := (2 : ℚ) / 5, steps_min := 3, steps_max := 3 }

/-- A 3x3, 3-step configuration with a feasible block-count range. -/
def cfg3 : TaskConfig :=
  { grid_size_min := 3, grid_size_max := 3, num_blocks_min := 2,
    num_blocks_max_ratio := (2 : ℚ) / 5, steps_min := 3, steps_max := 3 }

/-- A configuration with a negative step range: the sampler still
returns, but from start cells outside the grid. -/
def cfgNeg : TaskConfig :=
  { grid_size_min := 3, grid_size_max := 3, num_blocks_min := 1,
    num_blocks_max_ratio := (2 : ℚ) / 5, steps_min := -1, steps_max := -1 }

/-- A draw under `cfgNeg` whose sample takes the first valid position,
the out-of-grid cell `(-1, 0)`. -/
def dwNeg : Draw :=
  { r_grid := 0, r_blocks := 0, r_dir := 0, r_color := 0, r_steps := 0,
    chosen := [(-1, 0)] }

/-- The task data produced from `cfgNeg` and `dwNeg`. -/
def tpNeg : TaskParameters :=
  { type := "grid_shift", grid_size := 3, num_blocks := 1, color := "red",
    direction := .up, steps := -1, positions := [(-1, 0)],
    shifted_positions := [(0, 0)], difficulty := "easy" }

instance exceptDecEq {ε α : Type} [DecidableEq ε] [DecidableEq α] :
    DecidableEq (Except ε α) := fun a b =>
  match a, b with
  | .error e, .error f =>
    if h : e = f then .isTrue (congrArg Except.error h)
    else .isFalse (fun c => h (Except.error.inj c))
  | .ok x, .ok y =>
    if h : x = y then .isTrue (congrArg Except.ok h)
    else .isFalse (fun c => h (Except.ok.inj c))
  | .error _, .ok _ => .isFalse Except.noConfusion
  | .ok _, .error _ => .isFalse Except.noConfusion

/-!
Helper lemmas.
-/

/-- `randint_val a b r` never goes below `a`. -/
theorem randint_val_lower (a b : Int) (r : Nat) : a ≤ randint_val a b r := by
  unfold randint_val
  have := Int.natCast_nonneg (r % (b - a + 1).toNat)
  omega

/-- `randint_val a b r` stays at most `b` whenever the range is
non-empty. -/
theorem randint_val_upper (a b : Int) (r : Nat) (h : a ≤ b) : randint_val a b r ≤ b := by
  unfold randint_val
  have ht : 0 < (b - a + 1).toNat := by omega
  have hm := Nat.mod_lt r ht
  omega

/-- The `steps` range of step 4 is never empty: the clamp raises the
upper bound to `steps_min` when needed. -/
theorem steps_min_le_max_valid_steps (cfg : TaskConfig) (g : Int) :
    cfg.steps_min ≤ max_valid_steps cfg g := by
  unfold max_valid_steps
  dsimp only
  split <;> omega

/-- Membership in the Python `range(a, b)` list. -/
theorem mem_intRange {a b x : Int} : x ∈ intRange a b ↔ a ≤ x ∧ x < b := by
  unfold intRange
  rw [List.mem_map]
  constructor
  · rintro ⟨i, hi, rfl⟩
    rw [List.mem_range] at hi
    omega
  · intro h
    refine ⟨(x - a).toNat, ?_, ?_⟩
    · rw [List.mem_range]
      omega
    · omega

/-- `range(a, b)` has no duplicates. -/
theorem nodup_intRange (a b : Int) : (intRange a b).Nodup := by
  unfold intRange
  refine List.Nodup.map ?_ (List.nodup_range _)
  intro i j h
  dsimp only at h
  omega

/-- Every cell of `_get_valid_positions` lies in the grid before and
after the shift, provided the step count is non-negative. -/
theorem mem_get_valid_positions {g s : Int} {d : Direction} {p : Int × Int}
    (hs : 0 ≤ s) (hp : p ∈ get_valid_positions g d s) :
    (0 ≤ p.1 ∧ p.1 < g ∧ 0 ≤ p.2 ∧ p.2 < g) ∧
    (0 ≤ (shift_pos d s p).1 ∧ (shift_pos d s p).1 < g ∧
      0 ≤ (shift_pos d s p).2 ∧ (shift_pos d s p).2 < g) := by
  obtain ⟨r, c⟩ := p
  cases d <;>
    (simp [get_valid_positions, DIRECTIONS, shift_pos, List.mem_product,
      mem_intRange] at hp ⊢) <;>
    omega

/-- `_get_valid_positions` returns a duplicate-free list. -/
theorem nodup_get_valid_positions (g s : Int) (d : Direction) :
    (get_valid_positions g d s).Nodup := by
  cases d <;>
    exact List.Nodup.product (nodup_intRange _ _) (nodup_intRange _ _)

/-- Sampled elements come from the population. -/
theorem IsSample.subset {α : Type} {xs ys : List α} (h : IsSample xs ys) :
    ∀ x ∈ xs, x ∈ ys := by
  obtain ⟨idxs, -, rfl⟩ := h
  intro x hx
  obtain ⟨i, -, rfl⟩ := List.mem_map.mp hx
  exact ys.get_mem i.1 i.2

/-- A sample of a duplicate-free population is duplicate-free. -/
theorem IsSample.nodup {α : Type} {xs ys : List α} (hys : ys.Nodup)
    (h : IsSample xs ys) : xs.Nodup := by
  obtain ⟨idxs, hnd, rfl⟩ := h
  exact hnd.map (List.nodup_iff_injective_get.mp hys)

/-- Unfolding a successful attempt: all guards passed and the result is
`mk_task`. -/
theorem generate_attempt_ok_some {cfg : TaskConfig} {dw : Draw} {tp : TaskParameters}
    (h : generate_attempt cfg dw = .ok (some tp)) :
    cfg.grid_size_min ≤ cfg.grid_size_max ∧
    cfg.num_blocks_min ≤ num_blocks_hi cfg (drawn_grid_size cfg dw) ∧
    drawn_num_blocks cfg dw ≤ ((drawn_valid cfg dw).length : Int) ∧
    0 ≤ drawn_num_blocks cfg dw ∧
    tp = mk_task cfg dw := by
  unfold generate_attempt at h
  split_ifs at h with h1 h2 h3 h4 h5
  all_goals first
    | exact Except.noConfusion h
    | (have h6 := Option.some.inj (Except.ok.inj h)
       exact ⟨h1, h2, by omega, by omega, h6.symm⟩)
    | exact Option.noConfusion (Except.ok.inj h)

/-- The only error values an attempt itself can produce are the two
library `ValueError`s, never the exhaustion message. -/
theorem generate_attempt_error_msgs {cfg : TaskConfig} {dw : Draw} {e : String}
    (h : generate_attempt cfg dw = .error e) :
    e = randint_error_msg ∨ e = sample_error_msg := by
  unfold generate_attempt at h
  split_ifs at h <;> simp_all

/-- The exhaustion message differs from both library error messages. -/
theorem exhausted_msg_ne : exhausted_msg ≠ randint_error_msg ∧
    exhausted_msg ≠ sample_error_msg := by
  constructor <;> decide

/-- A successful run of the retry loop comes from a successful attempt
within its budget. -/
theorem attempts_from_ok {cfg : TaskConfig} {draws : Nat → Draw} {n : Nat}
    {tp : TaskParameters} :
    ∀ {start : Nat}, attempts_from cfg draws start n = .ok tp →
      ∃ k, start ≤ k ∧ k < start + n ∧ generate_attempt cfg (draws k) = .ok (some tp) := by
  induction n with
  | zero =>
    intro start h
    exact absurd h (by simp [attempts_from])
  | succ n ih =>
    intro start h
    rw [attempts_from] at h
    cases hA : generate_attempt cfg (draws start) with
    | error e =>
      rw [hA] at h
      exact absurd h (by simp)
    | ok o =>
      cases o with
      | some tp2 =>
        rw [hA] at h
        have := Except.ok.inj h
        exact ⟨start, le_refl _, by omega, by rw [hA, this]⟩
      | none =>
        rw [hA] at h
        obtain ⟨k, hk1, hk2, hk3⟩ := ih h
        exact ⟨k, by omega, by omega, hk3⟩

/-- The retry loop ends in the exhaustion error exactly when every
attempt in its budget hits the infeasibility `continue`. -/
theorem attempts_from_error_iff {cfg : TaskConfig} {draws : Nat → Draw} {n : Nat} :
    ∀ {start : Nat}, (attempts_from cfg draws start n = .error exhausted_msg ↔
      ∀ k, start ≤ k → k < start + n → generate_attempt cfg (draws k) = .ok none) := by
  induction n with
  | zero =>
    intro start
    constructor
    · intro _ k h1 h2
      omega
    · intro _
      rfl
  | succ n ih =>
    intro start
    rw [attempts_from]
    cases hA : generate_attempt cfg (draws start) with
    | error e =>
      constructor
      · intro h
        simp only [Except.error.injEq] at h
        subst h
        rcases generate_attempt_error_msgs hA with h1 | h1 <;>
          exact absurd h1 (by decide)
      · intro h
        have := h start (le_refl _) (by omega)
        rw [hA] at this
        exact absurd this (by simp)
    | ok o =>
      cases o with
      | some tp =>
        constructor
        · intro h
          exact absurd h (by simp)
        · intro h
          have := h start (le_refl _) (by omega)
          rw [hA] at this
          exact absurd this (by simp)
      | none =>
        constructor
        · intro h
          intro k h1 h2
          rcases Nat.eq_or_lt_of_le h1 with rfl | h1
          · exact hA
          · exact ih.mp h k h1 (by omega)
        · intro h
          exact ih.mpr (fun k h1 h2 => h k (by omega) (by omega))

/-- If every attempt before `k` was infeasible and attempt `k` succeeds
within the budget, the loop returns the result of attempt `k`. -/
theorem attempts_from_first_success {cfg : TaskConfig} {draws : Nat → Draw} {n : Nat}
    {k : Nat} {tp : TaskParameters} :
    ∀ {start : Nat}, start ≤ k → k < start + n →
      (∀ j, start ≤ j → j < k → generate_attempt cfg (draws j) = .ok none) →
      generate_attempt cfg (draws k) = .ok (some tp) →
      attempts_from cfg draws start n = .ok tp := by
  induction n with
  | zero =>
    intro start h1 h2 _ _
    omega
  | succ n ih =>
    intro start h1 h2 hprev hk
    rw [attempts_from]
    rcases Nat.eq_or_lt_of_le h1 with rfl | h1
    · rw [hk]
    · have h0 : generate_attempt cfg (draws start) = .ok none :=
        hprev start (le_refl _) (by omega)
      rw [h0]
      exact ih (by omega) (by omega) (fun j hj1 hj2 => hprev j (by omega) hj2) hk

/-- A successful `_generate_task_data` run comes from a successful
attempt among the first 100. -/
theorem generate_ok_exists {cfg : TaskConfig} {draws : Nat → Draw} {tp : TaskParameters}
    (h : generate_task_data cfg draws = .ok tp) :
    ∃ k, k < 100 ∧ generate_attempt cfg (draws k) = .ok (some tp) := by
  obtain ⟨k, h1, h2, h3⟩ := attempts_from_ok h
  exact ⟨k, by omega, h3⟩

/-- Every returned task comes from consistent draws: the positions list
is the sample of the attempt that produced it. -/
theorem generate_ok_fields {cfg : TaskConfig} {draws : Nat → Draw} {tp : TaskParameters}
    (hok : generate_task_data cfg draws = .ok tp) :
    ∃ k, k < 100 ∧ tp = mk_task cfg (draws k) ∧
      drawn_num_blocks cfg (draws k) ≤ ((drawn_valid cfg (draws k)).length : Int) := by
  obtain ⟨k, hk, hA⟩ := generate_ok_exists hok
  obtain ⟨-, -, hlen, -, htp⟩ := generate_attempt_ok_some hA
  exact ⟨k, hk, htp, hlen⟩

/-- Claim C1: every coordinate of every pair in `positions` and in
`shifted_positions` of a task returned by the sampler lies in
`[0, grid_size) x [0, grid_size)`, for every configuration with a
non-negative minimum step count (the spec fixes `steps >= 1`), including
the edge case where `max_valid_steps` is forced up to `steps_min` past
`grid_size - 2`. -/
theorem generated_positions_in_bounds (cfg : TaskConfig) (draws : Nat → Draw)
    (tp : TaskParameters) (hsm : 0 ≤ cfg.steps_min)
    (hcons : ∀ k, DrawConsistent cfg (draws k))
    (hok : generate_task_data cfg draws = .ok tp) :
    (∀ p ∈ tp.positions,
      0 ≤ p.1 ∧ p.1 < tp.grid_size ∧ 0 ≤ p.2 ∧ p.2 < tp.grid_size) ∧
    (∀ p ∈ tp.shifted_positions,
      0 ≤ p.1 ∧ p.1 < tp.grid_size ∧ 0 ≤ p.2 ∧ p.2 < tp.grid_size) := by
  obtain ⟨k, hk, htp, -⟩ := generate_ok_fields hok
  subst htp
  obtain ⟨hsamp, -⟩ := hcons k
  have hs0 : (0 : Int) ≤ drawn_steps cfg (draws k) :=
    le_trans hsm (randint_val_lower _ _ _)
  constructor
  · intro p hp
    have hp2 : p ∈ drawn_valid cfg (draws k) := hsamp.subset p hp
    have hb := mem_get_valid_positions hs0 hp2
    exact ⟨hb.1.1, hb.1.2.1, hb.1.2.2.1, hb.1.2.2.2⟩
  · intro p hp
    obtain ⟨q, hq, rfl⟩ := List.mem_map.mp hp
    have hq2 : q ∈ drawn_valid cfg (draws k) := hsamp.subset q hq
    have hb := mem_get_valid_positions hs0 hq2
    exact ⟨hb.2.1, hb.2.2.1, hb.2.2.2.1, hb.2.2.2.2⟩

/-- Claim C2: for every returned task, `shifted_positions` has the same
length as `positions`, both equal `num_blocks`, and entry `i` of
`shifted_positions` is entry `i` of `positions` translated by `steps`
times the direction delta, the deltas being `(-1,0)` up, `(1,0)` down,
`(0,-1)` left and `(0,1)` right. -/
theorem generated_shift_relation (cfg : TaskConfig) (draws : Nat → Draw)
    (tp : TaskParameters)
    (hcons : ∀ k, DrawConsistent cfg (draws k))
    (hok : generate_task_data cfg draws = .ok tp) :
    (((tp.positions.length : Int) = tp.num_blocks) ∧
      tp.shifted_positions.length = tp.positions.length) ∧
    (∀ (i : Nat) (p : Int × Int), tp.positions[i]? = some p →
      tp.shifted_positions[i]? =
        some (p.1 + (DIRECTIONS tp.direction).1 * tp.steps,
          p.2 + (DIRECTIONS tp.direction).2 * tp.steps)) ∧
    DIRECTIONS .up = (-1, 0) ∧ DIRECTIONS .down = (1, 0) ∧
    DIRECTIONS .left = (0, -1) ∧ DIRECTIONS .right = (0, 1) := by
  obtain ⟨k, hk, htp, -⟩ := generate_ok_fields hok
  subst htp
  obtain ⟨-, hlen⟩ := hcons k
  refine ⟨⟨hlen, ?_⟩, ?_, rfl, rfl, rfl, rfl⟩
  · exact List.length_map _ _
  · intro i p hp
    have hp2 : (draws k).chosen[i]? = some p := hp
    show ((draws k).chosen.map
      (shift_pos (drawn_direction (draws k)) (drawn_steps cfg (draws k))))[i]? = _
    rw [List.getElem?_map, hp2]
    rfl

/-- Claim C3: the positions of a returned task are pairwise distinct. -/
theorem generated_positions_nodup (cfg : TaskConfig) (draws : Nat → Draw)
    (tp : TaskParameters)
    (hcons : ∀ k, DrawConsistent cfg (draws k))
    (hok : generate_task_data cfg draws = .ok tp) :
    tp.positions.Nodup := by
  obtain ⟨k, hk, htp, -⟩ := generate_ok_fields hok
  subst htp
  exact IsSample.nodup (nodup_get_valid_positions _ _ _) (hcons k).1

/-- Claim C7: the block count of a returned task lies between
`num_blocks_min` and
`min (max num_blocks_min (floor (grid_size^2 * ratio))) (grid_size^2 - 1)`;
in particular it is below `grid_size^2`, leaving an empty cell. -/
theorem generated_num_blocks_in_range (cfg : TaskConfig) (draws : Nat → Draw)
    (tp : TaskParameters) (hratio : 0 ≤ cfg.num_blocks_max_ratio)
    (hok : generate_task_data cfg draws = .ok tp) :
    cfg.num_blocks_min ≤ tp.num_blocks ∧
    tp.num_blocks ≤ min
      (max cfg.num_blocks_min
        (⌊((tp.grid_size * tp.grid_size : Int) : ℚ) * cfg.num_blocks_max_ratio⌋))
      (tp.grid_size * tp.grid_size - 1) ∧
    tp.num_blocks < tp.grid_size * tp.grid_size := by
  obtain ⟨k, hk, hA⟩ := generate_ok_exists hok
  obtain ⟨-, hb, -, -, htp⟩ := generate_attempt_ok_some hA
  subst htp
  simp only [mk_task]
  have h1 : cfg.num_blocks_min ≤ drawn_num_blocks cfg (draws k) :=
    randint_val_lower _ _ _
  have h2 : drawn_num_blocks cfg (draws k)
      ≤ num_blocks_hi cfg (drawn_grid_size cfg (draws k)) :=
    randint_val_upper _ _ _ hb
  have hfl : int_trunc (((drawn_grid_size cfg (draws k) * drawn_grid_size cfg (draws k)
      : Int) : ℚ) * cfg.num_blocks_max_ratio)
      = ⌊((drawn_grid_size cfg (draws k) * drawn_grid_size cfg (draws k) : Int) : ℚ)
          * cfg.num_blocks_max_ratio⌋ := by
    unfold int_trunc
    rw [if_pos]
    refine mul_nonneg ?_ hratio
    have : (0 : Int) ≤ drawn_grid_size cfg (draws k) * drawn_grid_size cfg (draws k) :=
      mul_self_nonneg _
    exact_mod_cast this
  rw [num_blocks_hi, max_blocks_by_size, hfl] at h2
  refine ⟨h1, h2, ?_⟩
  have h3 : drawn_num_blocks cfg (draws k)
      ≤ drawn_grid_size cfg (draws k) * drawn_grid_size cfg (draws k) - 1 :=
    le_trans h2 (min_le_right _ _)
  omega

/-- Claim C4: the difficulty computation is a pure function of
`(grid_size, num_blocks, steps)` equal to the additive threshold scoring
described by the spec, with `(6,3,1)` easy and `(10,5,3)` expert. -/
theorem calculate_difficulty_spec_correct :
    (∀ g n s : Int, calculate_difficulty g n s = difficulty_spec g n s) ∧
    calculate_difficulty 6 3 1 = "easy" ∧ calculate_difficulty 10 5 3 = "expert" :=
  ⟨fun _ _ _ => rfl, by decide, by decide⟩

/-- One two-threshold contribution of the score is monotone in its
argument. -/
theorem threshold_mono {x y a b : Int} (h : x ≤ y) :
    (if x ≥ a then (2 : Int) else if x ≥ b then 1 else 0) ≤
      (if y ≥ a then 2 else if y ≥ b then 1 else 0) := by
  split_ifs <;> omega

/-- The difficulty score is monotone in all three arguments. -/
theorem difficulty_score_mono {g g2 n n2 s s2 : Int} (hg : g ≤ g2) (hn : n ≤ n2)
    (hs : s ≤ s2) : difficulty_score g n s ≤ difficulty_score g2 n2 s2 :=
  add_le_add (add_le_add (threshold_mono hg) (threshold_mono hn)) (threshold_mono hs)

/-- A larger score never yields a smaller label. -/
theorem difficulty_label_rank_mono {a b : Int} (h : a ≤ b) :
    difficulty_rank (difficulty_label a) ≤ difficulty_rank (difficulty_label b) := by
  unfold difficulty_label
  split_ifs <;> first | decide | omega

/-- Any single attempt under a 3x3 grid with forced 3-step moves hits
the infeasibility `continue`, provided the block-count draw itself is
feasible. -/
theorem attempt_infeasible_3x3 {cfg : TaskConfig} (h3a : cfg.grid_size_min = 3)
    (h3b : cfg.grid_size_max = 3) (hsa : cfg.steps_min = 3) (hsb : cfg.steps_max = 3)
    (hb1 : 1 ≤ cfg.num_blocks_min) (hb8 : cfg.num_blocks_min ≤ 8) (dw : Draw) :
    generate_attempt cfg dw = .ok none := by
  have hg : drawn_grid_size cfg dw = 3 := by
    unfold drawn_grid_size randint_val
    rw [h3a, h3b]
    norm_num
  have hmv : max_valid_steps cfg 3 = 3 := by
    unfold max_valid_steps
    rw [hsa, hsb]
    decide
  have hs : drawn_steps cfg dw = 3 := by
    unfold drawn_steps
    rw [hg, hmv, hsa]
    unfold randint_val
    norm_num
  have hnb : 1 ≤ drawn_num_blocks cfg dw :=
    le_trans hb1 (randint_val_lower _ _ _)
  have hvalid : drawn_valid cfg dw = [] := by
    unfold drawn_valid
    rw [hg, hs]
    cases drawn_direction dw <;> decide
  have hc1 : cfg.grid_size_min ≤ cfg.grid_size_max := by omega
  have hc2 : cfg.num_blocks_min ≤ num_blocks_hi cfg (drawn_grid_size cfg dw) := by
    rw [hg]
    unfold num_blocks_hi
    refine le_min ?_ (by omega)
    unfold max_blocks_by_size
    exact le_max_left _ _
  have hc4 : ((drawn_valid cfg dw).length : Int) < drawn_num_blocks cfg dw := by
    rw [hvalid]
    simp only [List.length_nil, Nat.cast_zero]
    omega
  unfold generate_attempt
  rw [if_pos hc1, if_pos hc2, if_pos (steps_min_le_max_valid_steps _ _), if_pos hc4]

/-- Claim C5 (amended): with `grid_size_min = grid_size_max = 3` and
`steps_min = steps_max = 3`, and a `num_blocks_min` between 1 and
`grid_size^2 - 1 = 8` so that the block-count draw itself does not raise,
every attempt is infeasible and the sampler fails with the
generation-exhausted error. -/
theorem sampler_3x3_steps3_exhausts (cfg : TaskConfig) (draws : Nat → Draw)
    (h3a : cfg.grid_size_min = 3) (h3b : cfg.grid_size_max = 3)
    (hsa : cfg.steps_min = 3) (hsb : cfg.steps_max = 3)
    (hb1 : 1 ≤ cfg.num_blocks_min) (hb8 : cfg.num_blocks_min ≤ 8) :
    generate_task_data cfg draws = .error exhausted_msg := by
  unfold generate_task_data
  exact attempts_from_error_iff.mpr
    (fun k _ _ => attempt_infeasible_3x3 h3a h3b hsa hsb hb1 hb8 (draws k))

/-- Claim C5 counterexample: `cfg9` has a 3x3 grid, forced 3 steps and
`num_blocks_min = 9 ≥ 1`, yet the sampler fails on the first attempt with
the empty-range `ValueError` of the block-count draw, not with the
generation-exhausted condition. -/
theorem sampler_3x3_steps3_counterexample :
    cfg9.grid_size_min = 3 ∧ cfg9.grid_size_max = 3 ∧ cfg9.steps_min = 3 ∧
    cfg9.steps_max = 3 ∧ 1 ≤ cfg9.num_blocks_min ∧
    generate_task_data cfg9 (fun _ => dw0) = .error randint_error_msg ∧
    randint_error_msg ≠ exhausted_msg := by
  refine ⟨rfl, rfl, rfl, rfl, by decide, ?_, by decide⟩
  have hg : drawn_grid_size cfg9 dw0 = 3 := by
    norm_num [drawn_grid_size, randint_val, cfg9, dw0]
  have hguard : ¬ cfg9.num_blocks_min ≤ num_blocks_hi cfg9 (drawn_grid_size cfg9 dw0) := by
    rw [hg]
    intro hcon
    have h8 : num_blocks_hi cfg9 3 ≤ (3 : Int) * 3 - 1 :=
      min_le_right _ _
    have h9 : cfg9.num_blocks_min = 9 := rfl
    omega
  have hA : generate_attempt cfg9 dw0 = .error randint_error_msg := by
    unfold generate_attempt
    rw [if_pos (by decide), if_neg hguard]
  show attempts_from cfg9 (fun _ => dw0) 0 100 = .error randint_error_msg
  rw [show (100 : Nat) = 99 + 1 from rfl, attempts_from]
  show (match generate_attempt cfg9 dw0 with
    | .error e => Except.error e
    | .ok (some tp) => Except.ok tp
    | .ok none => attempts_from cfg9 (fun _ => dw0) 1 99) = _
  rw [hA]

/-- Claim C6: the sampler makes at most 100 attempts; it ends in the
generation-exhausted error exactly when all 100 attempts are infeasible,
and returns the result of the first feasible attempt otherwise. -/
theorem generate_retry_budget (cfg : TaskConfig) (draws : Nat → Draw) :
    (generate_task_data cfg draws = .error exhausted_msg ↔
      ∀ k, k < 100 → generate_attempt cfg (draws k) = .ok none) ∧
    (∀ k (tp : TaskParameters), k < 100 →
      (∀ j, j < k → generate_attempt cfg (draws j) = .ok none) →
      generate_attempt cfg (draws k) = .ok (some tp) →
      generate_task_data cfg draws = .ok tp) := by
  constructor
  · unfold generate_task_data
    rw [attempts_from_error_iff]
    constructor
    · intro h k hk
      exact h k (Nat.zero_le _) (by omega)
    · intro h k _ hk
      exact h k (by omega)
  · intro k tp hk hprev hsucc
    unfold generate_task_data
    exact attempts_from_first_success (Nat.zero_le _) (by omega)
      (fun j _ hj => hprev j hj) hsucc

/-- Indexing the left part of a three-part append. -/
theorem append3_getElem_left {α : Type} (A B C : List α) (i : Nat) (h : i < A.length) :
    (A ++ B ++ C)[i]? = A[i]? := by
  rw [List.getElem?_append, if_pos (by simp; omega), List.getElem?_append, if_pos h]

/-- Indexing the middle part of a three-part append. -/
theorem append3_getElem_mid {α : Type} (A B C : List α) (i : Nat) (h : A.length ≤ i)
    (h2 : i < A.length + B.length) :
    (A ++ B ++ C)[i]? = B[i - A.length]? := by
  rw [List.getElem?_append, if_pos (by simp; omega), List.getElem?_append_right h]

/-- Indexing the right part of a three-part append. -/
theorem append3_getElem_right {α : Type} (A B C : List α) (i : Nat)
    (h : A.length + B.length ≤ i) :
    (A ++ B ++ C)[i]? = C[i - A.length - B.length]? := by
  rw [List.getElem?_append_right (by simp; omega)]
  congr 1
  simp
  omega

/-- Claim C8: the animation builder returns exactly
`2*hold_frames + transition_frames` frames; the first `hold_frames`
frames render the start positions, the last `hold_frames` render the end
positions, and transition frame `i` renders every block linearly
interpolated with `t = i / (transition_frames - 1)`, taken as `1` when
`transition_frames ≤ 1`, the same `t` for all blocks of the frame. -/
theorem animation_frames_spec (positions shifted_positions : List (Int × Int))
    (hold_frames transition_frames : Nat) :
    (create_grid_shift_animation_frames positions shifted_positions hold_frames
        transition_frames).length = 2 * hold_frames + transition_frames ∧
    (∀ i, i < hold_frames →
      (create_grid_shift_animation_frames positions shifted_positions hold_frames
        transition_frames)[i]? = some (to_frame positions)) ∧
    (∀ i, i < hold_frames →
      (create_grid_shift_animation_frames positions shifted_positions hold_frames
        transition_frames)[hold_frames + transition_frames + i]?
        = some (to_frame shifted_positions)) ∧
    (∀ i, i < transition_frames →
      (create_grid_shift_animation_frames positions shifted_positions hold_frames
        transition_frames)[hold_frames + i]?
        = some (interp_frame positions shifted_positions
            (if transition_frames ≤ 1 then 1
              else (i : ℚ) / ((transition_frames : ℚ) - 1)))) ∧
    (∀ (t : ℚ) (j : Nat) (p q : Int × Int), positions[j]? = some p →
      shifted_positions[j]? = some q →
      (interp_frame positions shifted_positions t)[j]? =
        some ((p.1 : ℚ) + ((q.1 : ℚ) - (p.1 : ℚ)) * t,
          (p.2 : ℚ) + ((q.2 : ℚ) - (p.2 : ℚ)) * t)) := by
  refine ⟨?_, ?_, ?_, ?_, ?_⟩
  · simp [create_grid_shift_animation_frames]
    omega
  · intro i hi
    unfold create_grid_shift_animation_frames
    rw [append3_getElem_left _ _ _ _ (by simp; omega)]
    rw [List.getElem?_replicate, if_pos hi]
  · intro i hi
    unfold create_grid_shift_animation_frames
    rw [append3_getElem_right _ _ _ _ (by simp)]
    rw [List.getElem?_replicate]
    rw [if_pos]
    simp only [List.length_replicate, List.length_map, List.length_range]
    omega
  · intro i hi
    unfold create_grid_shift_animation_frames
    rw [append3_getElem_mid _ _ _ _ (by simp) (by simp; omega)]
    simp only [List.length_replicate, Nat.add_sub_cancel_left]
    rw [List.getElem?_map, List.getElem?_range hi]
    have hpr : interp_progress transition_frames i
        = (if transition_frames ≤ 1 then 1
            else (i : ℚ) / ((transition_frames : ℚ) - 1)) := by
      unfold interp_progress
      split_ifs <;> first | rfl | omega
    simp only [Option.map_some']
    rw [hpr]
  · intro t j p q hp hq
    obtain ⟨hj1, e1⟩ := List.getElem?_eq_some.mp hp
    obtain ⟨hj2, e2⟩ := List.getElem?_eq_some.mp hq
    unfold interp_frame
    rw [List.getElem?_map]
    have hzip : (positions.zip shifted_positions)[j]? = some (p, q) := by
      rw [List.getElem?_eq_getElem (by simp [List.length_zip]; omega)]
      rw [List.getElem_zip, e1, e2]
    rw [hzip]
    rfl

/-- Claim C10: under the order easy < medium < hard < expert, the
difficulty label is monotone in each of `grid_size`, `num_blocks` and
`steps` separately. -/
theorem calculate_difficulty_monotone :
    (∀ g g2 n s : Int, g ≤ g2 →
      difficulty_rank (calculate_difficulty g n s)
        ≤ difficulty_rank (calculate_difficulty g2 n s)) ∧
    (∀ g n n2 s : Int, n ≤ n2 →
      difficulty_rank (calculate_difficulty g n s)
        ≤ difficulty_rank (calculate_difficulty g n2 s)) ∧
    (∀ g n s s2 : Int, s ≤ s2 →
      difficulty_rank (calculate_difficulty g n s)
        ≤ difficulty_rank (calculate_difficulty g n s2)) :=
  ⟨fun _ _ _ _ h => difficulty_label_rank_mono (difficulty_score_mono h le_rfl le_rfl),
   fun _ _ _ _ h => difficulty_label_rank_mono (difficulty_score_mono le_rfl h le_rfl),
   fun _ _ _ _ h => difficulty_label_rank_mono (difficulty_score_mono le_rfl le_rfl h)⟩

/-- Every `task_type` resolves to the full template list in the
`PROMPTS` lookup. -/
theorem PROMPTS_get_eq (task_type : String) : PROMPTS_get task_type = PROMPT_TEMPLATES := by
  unfold PROMPTS_get
  split_ifs <;> rfl

/-- The chosen template is always one of the three fixed templates. -/
theorem choiceD_templates_mem (r : Nat) :
    choiceD PROMPT_TEMPLATES [] r ∈ PROMPT_TEMPLATES := by
  show PROMPT_TEMPLATES.getD (r % 3) [] ∈ PROMPT_TEMPLATES
  have h3 : r % 3 = 0 ∨ r % 3 = 1 ∨ r % 3 = 2 := by omega
  rcases h3 with h | h | h <;> rw [h]
  · exact List.mem_cons_self _ _
  · exact List.mem_cons_of_mem _ (List.mem_cons_self _ _)
  · exact List.mem_cons_of_mem _ (List.mem_cons_of_mem _ (List.mem_cons_self _ _))

/-- Claim C9: the prompt composer takes the fallback exactly when the
`direction` or `steps` key is missing (or the input is empty or None); on
that path it returns the chosen raw template, independent of any
grid-specific field; on the normal path it returns one of the fixed
templates with every placeholder substituted. -/
theorem get_prompt_spec (r : Nat) (task_type : String) (task_data : Option TaskData) :
    ((task_data = none ∨ ∃ td, task_data = some td ∧
        (td.direction = none ∨ td.steps = none)) →
      get_prompt r task_type task_data = render_raw (choiceD PROMPT_TEMPLATES [] r)) ∧
    (∀ td direction steps, task_data = some td → td.direction = some direction →
      td.steps = some steps →
      get_prompt r task_type task_data
        = format_template (choiceD PROMPT_TEMPLATES [] r) (prompt_env td direction steps) ∧
      choiceD PROMPT_TEMPLATES [] r ∈ PROMPT_TEMPLATES) := by
  constructor
  · intro h
    rcases task_data with _ | td
    · show render_raw (choiceD (PROMPTS_get task_type) [] r) = _
      rw [PROMPTS_get_eq]
    · obtain ⟨dirF, stepsF, gF, nF, cF⟩ := td
      rcases h with h | ⟨td2, heq, hcase⟩
      · exact absurd h (by simp)
      · have heq2 := Option.some.inj heq
        subst heq2
        rcases hcase with hc | hc
        · have hdir : dirF = none := hc
          subst hdir
          show render_raw (choiceD (PROMPTS_get task_type) [] r) = _
          rw [PROMPTS_get_eq]
        · have hst : stepsF = none := hc
          subst hst
          cases dirF with
          | none =>
            show render_raw (choiceD (PROMPTS_get task_type) [] r) = _
            rw [PROMPTS_get_eq]
          | some d =>
            show render_raw (choiceD (PROMPTS_get task_type) [] r) = _
            rw [PROMPTS_get_eq]
  · intro td direction steps heq hdir hsteps
    subst heq
    obtain ⟨dirF, stepsF, gF, nF, cF⟩ := td
    have hd : dirF = some direction := hdir
    have hs : stepsF = some steps := hsteps
    subst hd
    subst hs
    exact ⟨rfl, choiceD_templates_mem r⟩

/-!
Concrete evaluation of one feasible attempt under `cfg0`, used by the
witnesses.  The rational arithmetic of `max_blocks_by_size` does not
reduce in the kernel, so these facts are established by `norm_num`.
-/

/-- The grid size drawn from `cfg0` with seed 0. -/
theorem grid_cfg0 : drawn_grid_size cfg0 dw0 = 4 := by
  norm_num [drawn_grid_size, randint_val, cfg0, dw0]

/-- The truncated block bound of a 4x4 grid at ratio 2/5. -/
theorem int_trunc_cfg0 :
    int_trunc (((4 * 4 : Int) : ℚ) * cfg0.num_blocks_max_ratio) = 6 := by
  unfold int_trunc
  rw [if_pos (by norm_num [cfg0])]
  rw [Int.floor_eq_iff]
  norm_num [cfg0]

/-- The `randint` upper bound for the block count under `cfg0`. -/
theorem hi_cfg0 : num_blocks_hi cfg0 (drawn_grid_size cfg0 dw0) = 6 := by
  rw [grid_cfg0]
  unfold num_blocks_hi max_blocks_by_size
  rw [int_trunc_cfg0]
  norm_num [cfg0]

/-- The block count drawn from `cfg0` with seed 0. -/
theorem nb_cfg0 : drawn_num_blocks cfg0 dw0 = 1 := by
  unfold drawn_num_blocks
  rw [hi_cfg0]
  norm_num [cfg0, dw0, randint_val]

/-- The step count drawn from `cfg0` with seed 0. -/
theorem steps_cfg0 : drawn_steps cfg0 dw0 = 1 := by
  unfold drawn_steps
  rw [grid_cfg0]
  have hmv : max_valid_steps cfg0 4 = 1 := by decide
  rw [hmv]
  norm_num [cfg0, dw0, randint_val]

/-- The direction drawn with seed 0 is up. -/
theorem dir_cfg0 : drawn_direction dw0 = Direction.up := by decide

/-- The valid-position list of the `cfg0` attempt. -/
theorem valid_cfg0 : drawn_valid cfg0 dw0 = get_valid_positions 4 .up 1 := by
  unfold drawn_valid
  rw [grid_cfg0, dir_cfg0, steps_cfg0]

/-- The `cfg0` draw satisfies the `random.sample` semantics. -/
theorem dw0_consistent : DrawConsistent cfg0 dw0 := by
  constructor
  · exact ⟨[⟨0, by decide⟩], by simp, by decide⟩
  · rw [nb_cfg0]
    decide

/-- The first attempt under `cfg0` succeeds and builds `tp0`. -/
theorem attempt_cfg0 : generate_attempt cfg0 dw0 = .ok (some tp0) := by
  have hc1 : cfg0.grid_size_min ≤ cfg0.grid_size_max := by decide
  have hc2 : cfg0.num_blocks_min ≤ num_blocks_hi cfg0 (drawn_grid_size cfg0 dw0) := by
    rw [hi_cfg0]
    decide
  have hc4 : ¬ ((drawn_valid cfg0 dw0).length : Int) < drawn_num_blocks cfg0 dw0 := by
    rw [valid_cfg0, nb_cfg0]
    decide
  have hc5 : ¬ drawn_num_blocks cfg0 dw0 < 0 := by
    rw [nb_cfg0]
    decide
  have hmk : mk_task cfg0 dw0 = tp0 := by
    unfold mk_task
    rw [grid_cfg0, nb_cfg0, steps_cfg0, dir_cfg0]
    decide
  unfold generate_attempt
  rw [if_pos hc1, if_pos hc2, if_pos (steps_min_le_max_valid_steps _ _),
    if_neg hc4, if_neg hc5, hmk]

/-- The sampler under `cfg0` returns `tp0` on the first attempt. -/
theorem generate_cfg0 : generate_task_data cfg0 (fun _ => dw0) = .ok tp0 := by
  unfold generate_task_data
  exact attempts_from_first_success (k := 0) (Nat.zero_le _) (by omega)
    (fun j h1 h2 => absurd h2 (by omega)) attempt_cfg0

/-!
Concrete evaluation of one attempt under the negative-step configuration
`cfgNeg`, showing the bounds invariant needs a sign condition on
`steps_min`.
-/

/-- The grid size drawn from `cfgNeg` with seed 0. -/
theorem grid_cfgNeg : drawn_grid_size cfgNeg dwNeg = 3 := by
  norm_num [drawn_grid_size, randint_val, cfgNeg, dwNeg]

/-- The truncated block bound of a 3x3 grid at ratio 2/5. -/
theorem int_trunc_cfgNeg :
    int_trunc (((3 * 3 : Int) : ℚ) * cfgNeg.num_blocks_max_ratio) = 3 := by
  unfold int_trunc
  rw [if_pos (by norm_num [cfgNeg])]
  rw [Int.floor_eq_iff]
  norm_num [cfgNeg]

/-- The `randint` upper bound for the block count under `cfgNeg`. -/
theorem hi_cfgNeg : num_blocks_hi cfgNeg (drawn_grid_size cfgNeg dwNeg) = 3 := by
  rw [grid_cfgNeg]
  unfold num_blocks_hi max_blocks_by_size
  rw [int_trunc_cfgNeg]
  norm_num [cfgNeg]

/-- The block count drawn from `cfgNeg` with seed 0. -/
theorem nb_cfgNeg : drawn_num_blocks cfgNeg dwNeg = 1 := by
  unfold drawn_num_blocks
  rw [hi_cfgNeg]
  norm_num [cfgNeg, dwNeg, randint_val]

/-- The step count drawn from `cfgNeg` is the negative `-1`. -/
theorem steps_cfgNeg : drawn_steps cfgNeg dwNeg = -1 := by
  unfold drawn_steps
  rw [grid_cfgNeg]
  have hmv : max_valid_steps cfgNeg 3 = -1 := by decide
  rw [hmv]
  norm_num [cfgNeg, dwNeg, randint_val]

/-- The `cfgNeg` draw satisfies the `random.sample` semantics. -/
theorem dwNeg_consistent : DrawConsistent cfgNeg dwNeg := by
  constructor
  · exact ⟨[⟨0, by decide⟩], by simp, by decide⟩
  · rw [nb_cfgNeg]
    decide

/-- The first attempt under `cfgNeg` succeeds and builds `tpNeg`. -/
theorem attempt_cfgNeg : generate_attempt cfgNeg dwNeg = .ok (some tpNeg) := by
  have hc1 : cfgNeg.grid_size_min ≤ cfgNeg.grid_size_max := by decide
  have hc2 : cfgNeg.num_blocks_min ≤ num_blocks_hi cfgNeg (drawn_grid_size cfgNeg dwNeg) := by
    rw [hi_cfgNeg]
    decide
  have hc4 : ¬ ((drawn_valid cfgNeg dwNeg).length : Int) < drawn_num_blocks cfgNeg dwNeg := by
    rw [nb_cfgNeg]
    decide
  have hc5 : ¬ drawn_num_blocks cfgNeg dwNeg < 0 := by
    rw [nb_cfgNeg]
    decide
  have hmk : mk_task cfgNeg dwNeg = tpNeg := by
    unfold mk_task
    rw [grid_cfgNeg, nb_cfgNeg, steps_cfgNeg]
    decide
  unfold generate_attempt
  rw [if_pos hc1, if_pos hc2, if_pos (steps_min_le_max_valid_steps _ _),
    if_neg hc4, if_neg hc5, hmk]

/-- The sampler under `cfgNeg` returns `tpNeg` on the first attempt. -/
theorem generate_cfgNeg : generate_task_data cfgNeg (fun _ => dwNeg) = .ok tpNeg := by
  unfold generate_task_data
  exact attempts_from_first_success (k := 0) (Nat.zero_le _) (by omega)
    (fun j h1 h2 => absurd h2 (by omega)) attempt_cfgNeg

/-- Counterexample to the unrestricted bounds claim: with
`steps_min = steps_max = -1` the sampler returns (with draws satisfying
the `random.sample` semantics) a task whose first position `(-1, 0)` has
a negative row, outside `[0, grid_size)`. -/
theorem generated_positions_in_bounds_counterexample :
    (∀ k : Nat, DrawConsistent cfgNeg ((fun _ => dwNeg) k)) ∧
    generate_task_data cfgNeg (fun _ => dwNeg) = .ok tpNeg ∧
    ((-1 : Int), (0 : Int)) ∈ tpNeg.positions ∧
    ¬ (0 ≤ (-1 : Int)) ∧ tpNeg.grid_size = 3 :=
  ⟨fun _ => dwNeg_consistent, generate_cfgNeg, by decide, by decide, rfl⟩

/-- Witness for the bounds invariant at the concrete run `cfg0`. -/
theorem generated_positions_in_bounds_witness :
    (∀ p ∈ tp0.positions,
      0 ≤ p.1 ∧ p.1 < tp0.grid_size ∧ 0 ≤ p.2 ∧ p.2 < tp0.grid_size) ∧
    (∀ p ∈ tp0.shifted_positions,
      0 ≤ p.1 ∧ p.1 < tp0.grid_size ∧ 0 ≤ p.2 ∧ p.2 < tp0.grid_size) :=
  generated_positions_in_bounds cfg0 (fun _ => dw0) tp0 (by decide)
    (fun _ => dw0_consistent) generate_cfg0

/-- Witness for the shift relation at the concrete run `cfg0`. -/
theorem generated_shift_relation_witness :
    (((tp0.positions.length : Int) = tp0.num_blocks) ∧
      tp0.shifted_positions.length = tp0.positions.length) ∧
    (∀ (i : Nat) (p : Int × Int), tp0.positions[i]? = some p →
      tp0.shifted_positions[i]? =
        some (p.1 + (DIRECTIONS tp0.direction).1 * tp0.steps,
          p.2 + (DIRECTIONS tp0.direction).2 * tp0.steps)) ∧
    DIRECTIONS .up = (-1, 0) ∧ DIRECTIONS .down = (1, 0) ∧
    DIRECTIONS .left = (0, -1) ∧ DIRECTIONS .right = (0, 1) :=
  generated_shift_relation cfg0 (fun _ => dw0) tp0
    (fun _ => dw0_consistent) generate_cfg0

/-- Witness for position distinctness at the concrete run `cfg0`. -/
theorem generated_positions_nodup_witness : tp0.positions.Nodup :=
  generated_positions_nodup cfg0 (fun _ => dw0) tp0
    (fun _ => dw0_consistent) generate_cfg0

/-- Witness for the block-count range at the concrete run `cfg0`. -/
theorem generated_num_blocks_in_range_witness :
    cfg0.num_blocks_min ≤ tp0.num_blocks ∧
    tp0.num_blocks ≤ min
      (max cfg0.num_blocks_min
        (⌊((tp0.grid_size * tp0.grid_size : Int) : ℚ) * cfg0.num_blocks_max_ratio⌋))
      (tp0.grid_size * tp0.grid_size - 1) ∧
    tp0.num_blocks < tp0.grid_size * tp0.grid_size :=
  generated_num_blocks_in_range cfg0 (fun _ => dw0) tp0
    (by norm_num [cfg0]) generate_cfg0

/-- Witness for the amended exhaustion claim at the concrete
configuration `cfg3`. -/
theorem sampler_3x3_steps3_exhausts_witness :
    generate_task_data cfg3 (fun _ => dw0) = .error exhausted_msg :=
  sampler_3x3_steps3_exhausts cfg3 (fun _ => dw0) rfl rfl rfl rfl
    (by decide) (by decide)

/-- Witness for the retry-budget contract: under `cfg0` the first
attempt already succeeds, so the sampler returns its task. -/
theorem generate_retry_budget_witness :
    generate_task_data cfg0 (fun _ => dw0) = .ok tp0 :=
  (generate_retry_budget cfg0 (fun _ => dw0)).2 0 tp0 (by omega)
    (fun j hj => absurd hj (by omega)) attempt_cfg0

/-- Witness for the animation-frame layout at a concrete two-block,
2-hold, 3-transition instance. -/
theorem animation_frames_spec_witness :
    (create_grid_shift_animation_frames [((0 : Int), (0 : Int)), (1, 2)]
      [(2, 0), (3, 2)] 2 3).length = 2 * 2 + 3 ∧
    (create_grid_shift_animation_frames [((0 : Int), (0 : Int)), (1, 2)]
      [(2, 0), (3, 2)] 2 3)[2]?
      = some (interp_frame [((0 : Int), (0 : Int)), (1, 2)] [(2, 0), (3, 2)]
          (if (3 : Nat) ≤ 1 then 1 else ((0 : Nat) : ℚ) / (((3 : Nat) : ℚ) - 1))) :=
  ⟨(animation_frames_spec [((0 : Int), (0 : Int)), (1, 2)] [(2, 0), (3, 2)] 2 3).1,
   (animation_frames_spec [((0 : Int), (0 : Int)), (1, 2)] [(2, 0), (3, 2)] 2 3).2.2.2.1
     0 (by decide)⟩

/-- Witness for the prompt fallback at a concrete missing-keys input. -/
theorem get_prompt_spec_witness :
    get_prompt 0 "grid_shift" none = render_raw (choiceD PROMPT_TEMPLATES [] 0) :=
  (get_prompt_spec 0 "grid_shift" none).1 (Or.inl rfl)

/-- Witness for difficulty monotonicity at a concrete pair of inputs. -/
theorem calculate_difficulty_monotone_witness :
    difficulty_rank (calculate_difficulty 6 3 1)
      ≤ difficulty_rank (calculate_difficulty 10 3 1) :=
  calculate_difficulty_monotone.1 6 10 3 1 (by decide)

end GridShift
